import Mathlib

/-!
# Coderr marketplace backend — verification of the specification

The repository ships its test suite (`Coderr_app/tests/test_views.py`) and the
`user_auth_app` initial migration; the implementation modules
(`Coderr_app/api/views.py`, `Coderr_app/models.py`, `user_auth_app` signal
handlers) are not part of the source tree available here.  The operations
below are therefore modelled from the specification (`spec.md`), faithful to
its words, and checked against the behaviours the test suite pins down.

The store is a record of lists of rows with per-table id counters; every
operation is a total Lean function returning `Except Err …`, where `Err` is
the spec's error taxonomy (§7).  Monetary amounts (Python `Decimal`) are
modelled as integers; the one-decimal `average_rating` float is modelled
exactly as an integer number of tenths (`4.0` is stored as `40`).
-/

namespace Coderr

/-- Error taxonomy of spec §7. -/
inductive Err where
  | Unauthenticated
  | Forbidden
  | NotFound
  | Validation
  | Internal
deriving DecidableEq, Repr

/-- Profile type: `choices=[('business', 'Business'), ('customer', 'Customer')]`
from `user_auth_app/migrations/0001_initial.py`. -/
inductive PType where
  | business
  | customer
deriving DecidableEq, Repr

/-- Profile row: one-to-one with a user account
(`OneToOneField(on_delete=CASCADE)` in the migration).  Only the fields the
claims mention are modelled. -/
structure Profile where
  user : Nat
  type : PType
deriving DecidableEq, Repr

/-- Offer row (spec §3): owned by exactly one creator. -/
structure Offer where
  id : Nat
  creator : Nat
  title : String
  description : String
deriving DecidableEq, Repr

/-- OfferDetail row (spec §3): belongs to exactly one Offer.  `price` is the
decimal amount modelled as an integer. -/
structure OfferDetail where
  id : Nat
  offer : Nat
  offer_type : String
  title : String
  revisions : Int
  delivery_time_in_days : Int
  price : Int
deriving DecidableEq, Repr

/-- Feature row (spec §3): belongs to exactly one OfferDetail. -/
structure Feature where
  id : Nat
  offer_detail : Nat
  description : String
deriving DecidableEq, Repr

/-- Order status (spec §3). -/
inductive OrdStatus where
  | in_progress
  | completed
  | cancelled
deriving DecidableEq, Repr

/-- Order row (spec §3): references customer, business and the OfferDetail,
plus snapshot fields copied from the OfferDetail at creation time. -/
structure Order where
  id : Nat
  customer : Nat
  business_user : Nat
  offer_detail : Nat
  status : OrdStatus
  snap_title : String
  snap_price : Int
  snap_delivery : Int
  snap_revisions : Int
  snap_features : List String
deriving DecidableEq, Repr

/-- Review row (spec §3).  `rating` is the integer in `[1,5]`. -/
structure Review where
  id : Nat
  reviewer : Nat
  business_user : Nat
  rating : Nat
  description : String
deriving DecidableEq, Repr

/-- Aggregate-stats singleton row (spec §3, §4.5 `BaseInfo`).
`average_rating_tenths` holds the one-decimal float exactly, scaled by ten
(`4.0` is stored as `40`). -/
structure BaseInfo where
  offer_count : Nat
  review_count : Nat
  business_profile_count : Nat
  average_rating_tenths : Nat
  total_offers : Nat
  total_completed_orders : Nat
deriving DecidableEq, Repr

/-- The relational store: one list of rows per table plus fresh-id counters,
and the optional stats singleton row. -/
structure Store where
  nextUser : Nat
  users : List Nat
  profiles : List Profile
  nextOffer : Nat
  offers : List Offer
  nextDetail : Nat
  details : List OfferDetail
  nextFeature : Nat
  features : List Feature
  nextOrder : Nat
  orders : List Order
  nextReview : Nat
  reviews : List Review
  baseInfo : Option BaseInfo
deriving DecidableEq, Repr

/-- The profile type of a user id, if any profile row references it. -/
def profileTypeOf (s : Store) (uid : Nat) : Option PType :=
  (s.profiles.find? (fun p => p.user = uid)).map (fun p => p.type)

/-- All detail rows of one offer, in insertion order. -/
def detailsOf (s : Store) (oid : Nat) : List OfferDetail :=
  s.details.filter (fun d => d.offer = oid)

/-- All feature rows of one offer detail, in insertion order. -/
def featuresOf (s : Store) (did : Nat) : List Feature :=
  s.features.filter (fun f => f.offer_detail = did)

/-- Whitespace test used by trimming (Python `str.strip` class). -/
def isSpace (c : Char) : Bool :=
  c = ' ' || c = '\t' || c = '\n' || c = '\r'

/-- Modelled from the spec (§4.2 "each string is trimmed"; the implementation
module `Coderr_app/api/views.py` is absent from the tree): Python `str.strip`,
dropping leading and trailing whitespace. -/
def strip (s : String) : String :=
  ⟨((s.data.dropWhile isSpace).reverse.dropWhile isSpace).reverse⟩

/-- Modelled from the spec (§4.2, Feature-list rule; `Coderr_app/api/views.py`
is absent from the tree): each string is trimmed, empty results are discarded
before persistence, order of retained features is insertion order of the
surviving subset. -/
def processFeatures (fs : List String) : List String :=
  (fs.map strip).filter (fun f => f ≠ "")

/-- Modelled from the spec (§4.5; `Coderr_app/models.py` is absent from the
tree): full recomputation of the aggregate counters from current store
contents.  The mean rating is rounded to one decimal, here computed exactly
in tenths: `(20*sum + count) / (2*count)` is `round(10 * sum/count)` for a
positive count (round half up). -/
def computeStats (s : Store) : BaseInfo :=
  { offer_count := s.offers.length
    review_count := s.reviews.length
    business_profile_count := (s.profiles.filter (fun p => p.type = PType.business)).length
    average_rating_tenths :=
      if s.reviews.isEmpty then 0
      else (20 * (s.reviews.map (fun r => r.rating)).sum + s.reviews.length) /
             (2 * s.reviews.length)
    total_offers := s.offers.length
    total_completed_orders := (s.orders.filter (fun o => o.status = OrdStatus.completed)).length }

/-- Modelled from the spec (§4.5): `BaseInfo.update_stats()` persists the
recomputed singleton row. -/
def update_stats (s : Store) : Store :=
  { s with baseInfo := some (computeStats s) }

/-- Modelled from the spec (§3 Profile lifecycle and the test suite's
`user.profile` access right after `create_user`; the `user_auth_app` signal
module is absent from the tree): creating an account automatically creates
its one-to-one Profile, with type defaulting to customer.  Returns the new
user id. -/
def create_user (s : Store) : Store × Nat :=
  let uid := s.nextUser
  ({ s with nextUser := uid + 1
            users := s.users ++ [uid]
            profiles := s.profiles ++ [⟨uid, PType.customer⟩] }, uid)

/-- Deleting an account cascades to its Profile
(`OneToOneField(on_delete=CASCADE)` in `user_auth_app/migrations/0001_initial.py`). -/
def delete_user (s : Store) (uid : Nat) : Store :=
  { s with users := s.users.filter (fun u => u ≠ uid)
           profiles := s.profiles.filter (fun p => p.user ≠ uid) }

/-- A detail spec as supplied by a client when creating an offer.  A field
holds `none` when the supplied value does not coerce to the column type
(malformed price, invalid type coercion); `persistOk := false` injects a
persistence error on the row insert.  `features` is `none` when the key is
absent or null. -/
structure RawDetailSpec where
  offer_type : Option String
  title : Option String
  revisions : Option Int
  delivery_time_in_days : Option Int
  price : Option Int
  features : Option (List String)
  persistOk : Bool
deriving DecidableEq, Repr

/-- Fully coerced payload of one detail spec. -/
structure ParsedDetail where
  offer_type : String
  title : String
  revisions : Int
  delivery_time_in_days : Int
  price : Int
  features : List String
deriving DecidableEq, Repr

/-- Modelled from the spec (§4.2 create_offer; `Coderr_app/api/views.py` is
absent from the tree): one independent attempt at constructing a detail.
`none` is the caught-and-skipped failure (coercion failure or persistence
error). -/
def buildDetail (spec : RawDetailSpec) : Option ParsedDetail :=
  match spec.offer_type, spec.title, spec.revisions, spec.delivery_time_in_days, spec.price with
  | some ot, some t, some r, some dd, some p =>
      if spec.persistOk then
        some ⟨ot, t, r, dd, p, processFeatures (spec.features.getD [])⟩
      else none
  | _, _, _, _, _ => none

/-- Insert one Feature row for a detail, with a fresh id. -/
def insertFeature (did : Nat) (s : Store) (desc : String) : Store :=
  { s with nextFeature := s.nextFeature + 1
           features := s.features ++ [⟨s.nextFeature, did, desc⟩] }

/-- Insert the given (already processed) descriptions as Feature rows of a
detail, in order. -/
def insertFeatures (s : Store) (did : Nat) (fs : List String) : Store :=
  fs.foldl (insertFeature did) s

/-- Modelled from the spec (§4.2): one best-effort detail creation step.  A
failed attempt leaves the store unchanged; a successful one appends the
detail row and its processed features. -/
def tryCreateDetail (oid : Nat) (s : Store) (spec : RawDetailSpec) : Store :=
  match buildDetail spec with
  | none => s
  | some pd =>
      let did := s.nextDetail
      let s1 := { s with nextDetail := did + 1
                         details := s.details ++
                           [⟨did, oid, pd.offer_type, pd.title, pd.revisions,
                             pd.delivery_time_in_days, pd.price⟩] }
      insertFeatures s1 did pd.features

/-- Modelled from the spec (§4.1 rule 2, §4.2 create_offer;
`Coderr_app/api/views.py` is absent from the tree): gate on a business actor,
create the Offer row, then attempt each detail spec independently
(best-effort), then recompute the stats singleton.  Returns the new offer id. -/
def create_offer (s : Store) (actor : Option Nat) (title description : String)
    (detail_specs : List RawDetailSpec) : Except Err (Store × Nat) :=
  match actor with
  | none => .error .Unauthenticated
  | some a =>
      if profileTypeOf s a = some PType.business then
        let oid := s.nextOffer
        let s1 := { s with nextOffer := oid + 1
                           offers := s.offers ++ [⟨oid, a, title, description⟩] }
        let s2 := detail_specs.foldl (tryCreateDetail oid) s1
        .ok (update_stats s2, oid)
      else .error .Forbidden

/-- A detail entry of an update request.  `features = none` models the key
being omitted; `features = some fs` models the key present with list `fs`
(spec §9: an explicit optional wrapper, not truthiness). -/
structure UpdDetailSpec where
  id : Nat
  offer_type : String
  title : String
  revisions : Int
  delivery_time_in_days : Int
  price : Int
  features : Option (List String)
deriving DecidableEq, Repr

/-- Modelled from the spec (§4.2 update_offer): an entry with a matching
existing detail id is updated in place; the `features` key, if present, fully
replaces that detail's feature set (delete-all-then-insert); if omitted,
existing features survive unchanged.  Entries with no matching detail are
skipped. -/
def applyDetailUpd (oid : Nat) (s : Store) (spec : UpdDetailSpec) : Store :=
  match s.details.find? (fun d => d.id = spec.id && d.offer = oid) with
  | none => s
  | some _ =>
      let s1 := { s with details := s.details.map (fun d =>
          if d.id = spec.id && d.offer = oid then
            { d with offer_type := spec.offer_type
                     title := spec.title
                     revisions := spec.revisions
                     delivery_time_in_days := spec.delivery_time_in_days
                     price := spec.price }
          else d) }
      match spec.features with
      | none => s1
      | some fs =>
          let s2 := { s1 with features :=
                        s1.features.filter (fun f => f.offer_detail ≠ spec.id) }
          insertFeatures s2 spec.id (processFeatures fs)

/-- Modelled from the spec (§4.1 rule 2, §4.2 update_offer): ownership-gated
offer update.  `detail_specs = none` models the details key being absent
(existing details left untouched); `some specs` updates each matching entry
in place.  Recomputes the stats singleton on success. -/
def update_offer (s : Store) (actor : Option Nat) (oid : Nat)
    (newTitle newDescription : Option String)
    (detail_specs : Option (List UpdDetailSpec)) : Except Err Store :=
  match actor with
  | none => .error .Unauthenticated
  | some a =>
      match s.offers.find? (fun o => o.id = oid) with
      | none => .error .NotFound
      | some o =>
          if o.creator = a then
            let s1 := { s with offers := s.offers.map (fun o2 =>
                if o2.id = oid then
                  { o2 with title := newTitle.getD o2.title
                            description := newDescription.getD o2.description }
                else o2) }
            let s2 := match detail_specs with
                      | none => s1
                      | some specs => specs.foldl (applyDetailUpd oid) s1
            .ok (update_stats s2)
          else .error .Forbidden

/-- Modelled from the spec (§4.1 rule 4, §4.4 create_review;
`Coderr_app/api/views.py` is absent from the tree): gated to customer actors;
the reviewer on the created record is always forced to the actor, regardless
of any reviewer value supplied in the request (`suppliedReviewer`); rating
must be in `[1,5]`; recomputes the stats singleton. -/
def create_review (s : Store) (actor : Option Nat) (business_user : Nat)
    (rating : Nat) (description : String) (suppliedReviewer : Option Nat) :
    Except Err (Store × Review) :=
  match actor with
  | none => .error .Unauthenticated
  | some a =>
      if profileTypeOf s a = some PType.customer then
        if 1 ≤ rating ∧ rating ≤ 5 then
          let r : Review := ⟨s.nextReview, a, business_user, rating, description⟩
          let s1 := { s with nextReview := s.nextReview + 1
                             reviews := s.reviews ++ [r] }
          .ok (update_stats s1, r)
        else .error .Validation
      else .error .Forbidden

/-- Modelled from the spec (§4.1 rule 3, §4.3 create_order;
`Coderr_app/api/views.py` is absent from the tree): gated to customer actors;
a missing or non-resolvable `offer_detail_id` is a validation failure;
`business_user` is derived from the detail's offer creator and the pricing,
delivery, revision and feature fields are snapshotted at this instant. -/
def create_order (s : Store) (actor : Option Nat) (offer_detail_id : Option Nat) :
    Except Err (Store × Order) :=
  match actor with
  | none => .error .Unauthenticated
  | some a =>
      if profileTypeOf s a = some PType.customer then
        match offer_detail_id with
        | none => .error .Validation
        | some did =>
            match s.details.find? (fun d => d.id = did) with
            | none => .error .Validation
            | some d =>
                match s.offers.find? (fun o => o.id = d.offer) with
                | none => .error .Internal
                | some o =>
                    let ord : Order :=
                      ⟨s.nextOrder, a, o.creator, did, OrdStatus.in_progress,
                       d.title, d.price, d.delivery_time_in_days, d.revisions,
                       (featuresOf s did).map (fun f => f.description)⟩
                    .ok ({ s with nextOrder := s.nextOrder + 1
                                  orders := s.orders ++ [ord] }, ord)
      else .error .Forbidden

/-- Modelled from the spec (§4.4; `Coderr_app/api/views.py` is absent from
the tree): 404 if no identity with that id exists; 400 if the identity exists
but its profile type is not business; else that business's reviews. -/
def reviews_for_business (s : Store) (uid : Nat) : Except Err (List Review) :=
  if uid ∈ s.users then
    match profileTypeOf s uid with
    | some PType.business => .ok (s.reviews.filter (fun r => r.business_user = uid))
    | _ => .error .Validation
  else .error .NotFound

/-- Modelled from the spec (§4.4): symmetric to `reviews_for_business` —
404 if the identity is absent, 400 if its profile type is not customer. -/
def reviews_by_reviewer (s : Store) (uid : Nat) : Except Err (List Review) :=
  if uid ∈ s.users then
    match profileTypeOf s uid with
    | some PType.customer => .ok (s.reviews.filter (fun r => r.reviewer = uid))
    | _ => .error .Validation
  else .error .NotFound

/-- The core (non-id, non-features) columns of a persisted detail row. -/
def coreOf (d : OfferDetail) : String × String × Int × Int × Int :=
  (d.offer_type, d.title, d.revisions, d.delivery_time_in_days, d.price)

/-- The core columns of a parsed detail payload. -/
def coreOfP (pd : ParsedDetail) : String × String × Int × Int × Int :=
  (pd.offer_type, pd.title, pd.revisions, pd.delivery_time_in_days, pd.price)

/-- Rounding a rational to one decimal place. -/
def round1 (x : ℚ) : ℚ := (round (10 * x) : ℤ) / 10

/-- Projection of an operation result to its new store, when it succeeded. -/
def okStore : Except Err Store → Option Store
  | .ok s => some s
  | .error _ => none

/-- A concrete store mirroring `OfferDetailViewSetTest.setUp`: a business
user (id 1), a customer user (id 2), one offer by the business with one
`basic` detail carrying features "Feature 1" and "Feature 2". -/
def demoStore : Store where
  nextUser := 3
  users := [1, 2]
  profiles := [⟨1, PType.business⟩, ⟨2, PType.customer⟩]
  nextOffer := 2
  offers := [⟨1, 1, "Test Service", "Test description"⟩]
  nextDetail := 2
  details := [⟨1, 1, "basic", "Basic Package", 2, 7, 100⟩]
  nextFeature := 3
  features := [⟨1, 1, "Feature 1"⟩, ⟨2, 1, "Feature 2"⟩]
  nextOrder := 1
  orders := []
  nextReview := 1
  reviews := []
  baseInfo := none

/-- `demoStore` with three reviews of the business, ratings 5, 4 and 3
(mirrors `BaseInfoViewTest`). -/
def ratedStore : Store :=
  { demoStore with
      nextReview := 4
      reviews := [⟨1, 2, 1, 5, "Great service!"⟩, ⟨2, 2, 1, 4, "Good"⟩,
                  ⟨3, 2, 1, 3, "OK"⟩] }

/-- The one-to-one account/profile pairing: every user id and profile
references lie below the id counter, every user has exactly one profile row,
and every profile row's user exists. -/
def ProfileInv (s : Store) : Prop :=
  (∀ u ∈ s.users, u < s.nextUser) ∧
  (∀ p ∈ s.profiles, p.user < s.nextUser) ∧
  (∀ u ∈ s.users, (s.profiles.filter (fun p => p.user = u)).length = 1) ∧
  (∀ p ∈ s.profiles, p.user ∈ s.users)

section Lemmas

theorem insertFeatures_details (s : Store) (did : Nat) (fs : List String) :
    (insertFeatures s did fs).details = s.details := by
  induction fs generalizing s with
  | nil => rfl
  | cons f rest ih =>
      simp only [insertFeatures, List.foldl_cons] at ih ⊢
      rw [ih]
      rfl

theorem insertFeatures_offers (s : Store) (did : Nat) (fs : List String) :
    (insertFeatures s did fs).offers = s.offers := by
  induction fs generalizing s with
  | nil => rfl
  | cons f rest ih =>
      simp only [insertFeatures, List.foldl_cons] at ih ⊢
      rw [ih]
      rfl

theorem featuresOf_insertFeatures (s : Store) (did : Nat) (fs : List String) :
    (featuresOf (insertFeatures s did fs) did).map (fun f => f.description)
      = (featuresOf s did).map (fun f => f.description) ++ fs := by
  induction fs generalizing s with
  | nil => simp [insertFeatures]
  | cons f rest ih =>
      simp only [insertFeatures, List.foldl_cons] at ih ⊢
      rw [ih]
      simp [featuresOf, insertFeature, List.filter_append]

theorem featuresOf_other_insertFeatures (s : Store) (did did2 : Nat) (h : did2 ≠ did)
    (fs : List String) :
    featuresOf (insertFeatures s did fs) did2 = featuresOf s did2 := by
  induction fs generalizing s with
  | nil => rfl
  | cons f rest ih =>
      simp only [insertFeatures, List.foldl_cons] at ih ⊢
      rw [ih]
      simp [featuresOf, insertFeature, List.filter_append, Ne.symm h]

theorem tryCreateDetail_offers (oid : Nat) (s : Store) (spec : RawDetailSpec) :
    (tryCreateDetail oid s spec).offers = s.offers := by
  unfold tryCreateDetail
  cases buildDetail spec with
  | none => rfl
  | some pd => simp [insertFeatures_offers]

theorem foldl_tryCreateDetail_offers (specs : List RawDetailSpec) (oid : Nat) (s : Store) :
    (specs.foldl (tryCreateDetail oid) s).offers = s.offers := by
  induction specs generalizing s with
  | nil => rfl
  | cons spec rest ih => rw [List.foldl_cons, ih, tryCreateDetail_offers]

theorem detailsOf_foldl_tryCreateDetail (specs : List RawDetailSpec) (oid : Nat) (s : Store) :
    (detailsOf (specs.foldl (tryCreateDetail oid) s) oid).map coreOf
      = (detailsOf s oid).map coreOf ++ (specs.filterMap buildDetail).map coreOfP := by
  induction specs generalizing s with
  | nil => simp
  | cons spec rest ih =>
      rw [List.foldl_cons]
      cases hb : buildDetail spec with
      | none =>
          rw [ih, List.filterMap_cons, hb]
          simp [tryCreateDetail, hb]
      | some pd =>
          rw [ih, List.filterMap_cons, hb]
          have hdet : detailsOf (tryCreateDetail oid s spec) oid
              = detailsOf s oid ++
                [⟨s.nextDetail, oid, pd.offer_type, pd.title, pd.revisions,
                  pd.delivery_time_in_days, pd.price⟩] := by
            simp [tryCreateDetail, hb, detailsOf, insertFeatures_details,
              List.filter_append]
          rw [hdet]
          simp [coreOf, coreOfP]

theorem buildDetail_features (spec : RawDetailSpec) (pd : ParsedDetail)
    (h : buildDetail spec = some pd) :
    pd.features = processFeatures (spec.features.getD []) := by
  unfold buildDetail at h
  split at h
  · split at h
    · cases h
      rfl
    · cases h
  · cases h

theorem processFeatures_of_clean (fs : List String)
    (h : ∀ f ∈ fs, strip f = f ∧ f ≠ "") :
    processFeatures fs = fs := by
  unfold processFeatures
  rw [List.map_congr_left (fun f hf => (h f hf).1), List.map_id']
  exact List.filter_eq_self.mpr (fun f hf => by simpa using (h f hf).2)

theorem filter_erase_all (l : List Feature) (did : Nat) :
    (l.filter (fun f => f.offer_detail ≠ did)).filter (fun f => f.offer_detail = did)
      = [] := by
  induction l with
  | nil => rfl
  | cons f rest ih => by_cases h : f.offer_detail = did <;> simp [h, ih]

theorem round_tenths (a b : ℕ) (hb : b ≠ 0) :
    (((20 * a + b) / (2 * b) : ℕ) : ℤ) = round ((10 * a : ℚ) / b) := by
  have hb' : (b : ℚ) ≠ 0 := Nat.cast_ne_zero.mpr hb
  have key : (10 * a : ℚ) / b + 1 / 2 = ((20 * a + b : ℕ) : ℚ) / ((2 * b : ℕ) : ℚ) := by
    push_cast
    field_simp
    ring
  have h0 : (0 : ℚ) ≤ ((20 * a + b : ℕ) : ℚ) / ((2 * b : ℕ) : ℚ) := by positivity
  calc (((20 * a + b) / (2 * b) : ℕ) : ℤ)
      = (⌊((20 * a + b : ℕ) : ℚ) / ((2 * b : ℕ) : ℚ)⌋₊ : ℤ) := by
        rw [Nat.floor_div_eq_div]
    _ = ⌊((20 * a + b : ℕ) : ℚ) / ((2 * b : ℕ) : ℚ)⌋ := Int.natCast_floor_eq_floor h0
    _ = ⌊(10 * a : ℚ) / b + 1 / 2⌋ := by rw [key]
    _ = round ((10 * a : ℚ) / b) := (round_eq _).symm

end Lemmas

/-- **C1**: for every `create_offer` call by a business actor with a valid
title and description, the Offer row is created and the operation reports
success (the created Offer), even if constructing one or more of the supplied
detail specs fails: the details persisted for the new offer are exactly those
whose individual construction succeeds, so a detail failure is skipped and
never aborts or rolls back the Offer or any sibling detail. -/
theorem create_offer_best_effort (s : Store) (a : Nat) (title description : String)
    (specs : List RawDetailSpec)
    (hbiz : profileTypeOf s a = some PType.business)
    (hfresh : detailsOf s s.nextOffer = []) :
    ∃ s', create_offer s (some a) title description specs = .ok (s', s.nextOffer) ∧
      (⟨s.nextOffer, a, title, description⟩ : Offer) ∈ s'.offers ∧
      (detailsOf s' s.nextOffer).map coreOf
        = (specs.filterMap buildDetail).map coreOfP := by
  have hres : create_offer s (some a) title description specs
      = .ok (update_stats (specs.foldl (tryCreateDetail s.nextOffer)
          { s with nextOffer := s.nextOffer + 1
                   offers := s.offers ++ [⟨s.nextOffer, a, title, description⟩] }),
        s.nextOffer) := by
    simp [create_offer, hbiz]
  refine ⟨_, hres, ?_, ?_⟩
  · have ho : (update_stats (specs.foldl (tryCreateDetail s.nextOffer)
        { s with nextOffer := s.nextOffer + 1
                 offers := s.offers ++ [⟨s.nextOffer, a, title, description⟩] })).offers
        = s.offers ++ [⟨s.nextOffer, a, title, description⟩] := by
      show (specs.foldl (tryCreateDetail s.nextOffer) _).offers = _
      rw [foldl_tryCreateDetail_offers]
    rw [ho]
    exact List.mem_append_right _ (List.mem_singleton.mpr rfl)
  · have hd : detailsOf (update_stats (specs.foldl (tryCreateDetail s.nextOffer)
        { s with nextOffer := s.nextOffer + 1
                 offers := s.offers ++ [⟨s.nextOffer, a, title, description⟩] })) s.nextOffer
        = detailsOf (specs.foldl (tryCreateDetail s.nextOffer)
          { s with nextOffer := s.nextOffer + 1
                   offers := s.offers ++ [⟨s.nextOffer, a, title, description⟩] }) s.nextOffer := rfl
    rw [hd, detailsOf_foldl_tryCreateDetail]
    have hd2 : detailsOf
        { s with nextOffer := s.nextOffer + 1
                 offers := s.offers ++ [⟨s.nextOffer, a, title, description⟩] } s.nextOffer
        = detailsOf s s.nextOffer := rfl
    rw [hd2, hfresh]
    simp

/-- C1's witness: in `demoStore`, a business actor submits one well-formed
detail spec, one with a malformed price and one hitting a persistence error;
the offer is created, the call succeeds, and exactly the one good detail is
persisted. -/
theorem create_offer_best_effort_witness :
    profileTypeOf demoStore 1 = some PType.business ∧
    detailsOf demoStore demoStore.nextOffer = [] ∧
    ∃ s', create_offer demoStore (some 1) "Test Offer" "Test"
        [⟨some "basic", some "Basic", some 2, some 5, some 100, some ["Feature 1"], true⟩,
         ⟨some "basic", some "Basic", some 2, some 5, none, some ["Feature 1"], true⟩,
         ⟨some "basic", some "Basic", some 2, some 5, some 100, some ["Feature 1"], false⟩]
        = .ok (s', demoStore.nextOffer) ∧
      (⟨demoStore.nextOffer, 1, "Test Offer", "Test"⟩ : Offer) ∈ s'.offers ∧
      (detailsOf s' demoStore.nextOffer).map coreOf
        = ([⟨some "basic", some "Basic", some 2, some 5, some 100, some ["Feature 1"], true⟩,
            ⟨some "basic", some "Basic", some 2, some 5, none, some ["Feature 1"], true⟩,
            ⟨some "basic", some "Basic", some 2, some 5, some 100, some ["Feature 1"], false⟩].filterMap
              buildDetail).map coreOfP :=
  ⟨by decide, by decide,
    create_offer_best_effort demoStore 1 "Test Offer" "Test" _ (by decide) (by decide)⟩

/-- **C4**: for every feature list supplied in a (successfully constructed)
detail spec of an offer creation, the persisted features of the new detail
are exactly the supplied strings trimmed, with entries that are blank after
trimming discarded, in the insertion order of the surviving entries. -/
theorem create_offer_trims_features (s : Store) (a : Nat) (t d : String)
    (spec : RawDetailSpec) (pd : ParsedDetail) (fs : List String)
    (hbiz : profileTypeOf s a = some PType.business)
    (hbuild : buildDetail spec = some pd)
    (hfs : spec.features = some fs)
    (hfresh : featuresOf s s.nextDetail = []) :
    ∃ s', create_offer s (some a) t d [spec] = .ok (s', s.nextOffer) ∧
      (featuresOf s' s.nextDetail).map (fun f => f.description)
        = (fs.map strip).filter (fun f => f ≠ "") := by
  have hres : create_offer s (some a) t d [spec]
      = .ok (update_stats (tryCreateDetail s.nextOffer
          { s with nextOffer := s.nextOffer + 1
                   offers := s.offers ++ [⟨s.nextOffer, a, t, d⟩] } spec), s.nextOffer) := by
    simp [create_offer, hbiz]
  refine ⟨_, hres, ?_⟩
  have htry : tryCreateDetail s.nextOffer
      { s with nextOffer := s.nextOffer + 1
               offers := s.offers ++ [⟨s.nextOffer, a, t, d⟩] } spec
      = insertFeatures
          { s with nextOffer := s.nextOffer + 1
                   offers := s.offers ++ [⟨s.nextOffer, a, t, d⟩]
                   nextDetail := s.nextDetail + 1
                   details := s.details ++
                     [⟨s.nextDetail, s.nextOffer, pd.offer_type, pd.title, pd.revisions,
                       pd.delivery_time_in_days, pd.price⟩] } s.nextDetail pd.features := by
    simp [tryCreateDetail, hbuild]
  have hfeat : featuresOf (update_stats (tryCreateDetail s.nextOffer
      { s with nextOffer := s.nextOffer + 1
               offers := s.offers ++ [⟨s.nextOffer, a, t, d⟩] } spec)) s.nextDetail
      = featuresOf (tryCreateDetail s.nextOffer
        { s with nextOffer := s.nextOffer + 1
                 offers := s.offers ++ [⟨s.nextOffer, a, t, d⟩] } spec) s.nextDetail := rfl
  rw [hfeat, htry, featuresOf_insertFeatures]
  have hf0 : featuresOf
      { s with nextOffer := s.nextOffer + 1
               offers := s.offers ++ [⟨s.nextOffer, a, t, d⟩]
               nextDetail := s.nextDetail + 1
               details := s.details ++
                 [⟨s.nextDetail, s.nextOffer, pd.offer_type, pd.title, pd.revisions,
                   pd.delivery_time_in_days, pd.price⟩] } s.nextDetail
      = featuresOf s s.nextDetail := rfl
  rw [hf0, hfresh]
  have hpf : pd.features = processFeatures fs := by
    rw [buildDetail_features spec pd hbuild, hfs]
    rfl
  rw [hpf]
  rfl

/-- C4's witness: in `demoStore`, creating an offer with the feature list
`["", "  ", "Valid Feature", "\t", "   "]` (the payload of
`test_offer_create_empty_feature_strings`) persists exactly
`["Valid Feature"]`. -/
theorem create_offer_trims_features_witness :
    ∃ s', create_offer demoStore (some 1) "Test Offer" "Test"
        [⟨some "basic", some "Basic", some 2, some 5, some 100,
          some ["", "  ", "Valid Feature", "\t", "   "], true⟩]
        = .ok (s', demoStore.nextOffer) ∧
      (featuresOf s' demoStore.nextDetail).map (fun f => f.description)
        = (["", "  ", "Valid Feature", "\t", "   "].map strip).filter (fun f => f ≠ "") :=
  create_offer_trims_features demoStore 1 "Test Offer" "Test" _
    ⟨"basic", "Basic", 2, 5, 100, ["Valid Feature"]⟩
    ["", "  ", "Valid Feature", "\t", "   "] (by decide) (by decide) (by decide) (by decide)

/-- **C2 (as amended)**: for every offer update request whose detail entry
carries a `features` key with list `fs`, after the update that detail's
persisted feature set is exactly `fs` trimmed with blank entries discarded
(all pre-existing features deleted, the processed supplied ones inserted),
regardless of what features existed before; in particular it is exactly `fs`
whenever every supplied entry is already trimmed and non-blank. -/
theorem update_offer_replaces_features (s : Store) (a oid : Nat) (o : Offer)
    (nt nd : Option String) (spec : UpdDetailSpec) (fs : List String)
    (hfind : s.offers.find? (fun o2 => o2.id = oid) = some o)
    (hcr : o.creator = a)
    (hfs : spec.features = some fs)
    (hdet : (s.details.find? (fun d2 => d2.id = spec.id && d2.offer = oid)).isSome) :
    ∃ s', update_offer s (some a) oid nt nd (some [spec]) = .ok s' ∧
      (featuresOf s' spec.id).map (fun f => f.description) = processFeatures fs ∧
      ((∀ f ∈ fs, strip f = f ∧ f ≠ "") →
        (featuresOf s' spec.id).map (fun f => f.description) = fs) := by
  obtain ⟨dd, hdd⟩ := Option.isSome_iff_exists.mp hdet
  have hupd : update_offer s (some a) oid nt nd (some [spec])
      = .ok (update_stats (applyDetailUpd oid
          { s with offers := s.offers.map (fun o2 =>
              if o2.id = oid then
                { o2 with title := nt.getD o2.title
                          description := nd.getD o2.description }
              else o2) } spec)) := by
    simp [update_offer, hfind, hcr]
  have happ : applyDetailUpd oid
      { s with offers := s.offers.map (fun o2 =>
          if o2.id = oid then
            { o2 with title := nt.getD o2.title
                      description := nd.getD o2.description }
          else o2) } spec
      = insertFeatures
          { s with offers := s.offers.map (fun o2 =>
              if o2.id = oid then
                { o2 with title := nt.getD o2.title
                          description := nd.getD o2.description }
              else o2)
                   details := s.details.map (fun d =>
              if d.id = spec.id && d.offer = oid then
                { d with offer_type := spec.offer_type
                         title := spec.title
                         revisions := spec.revisions
                         delivery_time_in_days := spec.delivery_time_in_days
                         price := spec.price }
              else d)
                   features := s.features.filter (fun f => f.offer_detail ≠ spec.id) }
          spec.id (processFeatures fs) := by
    show applyDetailUpd oid _ spec = _
    unfold applyDetailUpd
    rw [show ({ s with offers := s.offers.map (fun o2 =>
        if o2.id = oid then
          { o2 with title := nt.getD o2.title
                    description := nd.getD o2.description }
        else o2) } : Store).details = s.details from rfl, hdd, hfs]
  refine ⟨_, hupd, ?_, ?_⟩
  · have h1 : featuresOf (update_stats (applyDetailUpd oid
        { s with offers := s.offers.map (fun o2 =>
            if o2.id = oid then
              { o2 with title := nt.getD o2.title
                        description := nd.getD o2.description }
            else o2) } spec)) spec.id
        = featuresOf (applyDetailUpd oid
          { s with offers := s.offers.map (fun o2 =>
              if o2.id = oid then
                { o2 with title := nt.getD o2.title
                          description := nd.getD o2.description }
              else o2) } spec) spec.id := rfl
    rw [h1, happ, featuresOf_insertFeatures]
    have h2 : featuresOf
        { s with offers := s.offers.map (fun o2 =>
            if o2.id = oid then
              { o2 with title := nt.getD o2.title
                        description := nd.getD o2.description }
            else o2)
                 details := s.details.map (fun d =>
            if d.id = spec.id && d.offer = oid then
              { d with offer_type := spec.offer_type
                       title := spec.title
                       revisions := spec.revisions
                       delivery_time_in_days := spec.delivery_time_in_days
                       price := spec.price }
            else d)
                 features := s.features.filter (fun f => f.offer_detail ≠ spec.id) }
        spec.id
        = (s.features.filter (fun f => f.offer_detail ≠ spec.id)).filter
            (fun f => f.offer_detail = spec.id) := rfl
    rw [h2, filter_erase_all]
    rfl
  · intro hclean
    have h3 : (featuresOf (update_stats (applyDetailUpd oid
        { s with offers := s.offers.map (fun o2 =>
            if o2.id = oid then
              { o2 with title := nt.getD o2.title
                        description := nd.getD o2.description }
            else o2) } spec)) spec.id).map (fun f => f.description)
        = processFeatures fs := by
      have h1 : featuresOf (update_stats (applyDetailUpd oid
          { s with offers := s.offers.map (fun o2 =>
              if o2.id = oid then
                { o2 with title := nt.getD o2.title
                          description := nd.getD o2.description }
              else o2) } spec)) spec.id
          = featuresOf (applyDetailUpd oid
            { s with offers := s.offers.map (fun o2 =>
                if o2.id = oid then
                  { o2 with title := nt.getD o2.title
                            description := nd.getD o2.description }
                else o2) } spec) spec.id := rfl
      rw [h1, happ, featuresOf_insertFeatures]
      have h2 : featuresOf
          { s with offers := s.offers.map (fun o2 =>
              if o2.id = oid then
                { o2 with title := nt.getD o2.title
                          description := nd.getD o2.description }
              else o2)
                   details := s.details.map (fun d =>
              if d.id = spec.id && d.offer = oid then
                { d with offer_type := spec.offer_type
                         title := spec.title
                         revisions := spec.revisions
                         delivery_time_in_days := spec.delivery_time_in_days
                         price := spec.price }
              else d)
                   features := s.features.filter (fun f => f.offer_detail ≠ spec.id) }
          spec.id
          = (s.features.filter (fun f => f.offer_detail ≠ spec.id)).filter
              (fun f => f.offer_detail = spec.id) := rfl
      rw [h2, filter_erase_all]
      rfl
    rw [h3, processFeatures_of_clean fs hclean]

/-- C2's counterexample to the claim as stated: in `demoStore` (whose detail
1 carries features "Feature 1" and "Feature 2"), an owner update supplying
`features = ["", "New Feature"]` succeeds but persists `["New Feature"]`,
not the supplied list `["", "New Feature"]`: the blank entry is discarded,
so the persisted set is not exactly `{f1, …, fn}`. -/
theorem update_offer_verbatim_features_cex :
    (okStore (update_offer demoStore (some 1) 1 none none
        (some [⟨1, "basic", "Updated Basic Package", 3, 3, 150,
               some ["", "New Feature"]⟩]))).map
      (fun s' => (featuresOf s' 1).map (fun f => f.description))
      = some ["New Feature"] ∧
    some ["New Feature"] ≠ some ["", "New Feature"] := by
  constructor
  · decide
  · decide

/-- C2's witness for the amended claim: the owner updates detail 1 of
`demoStore` with `features = ["New Feature 1", "New Feature 2"]` (the payload
of `test_offer_update_lines_212_213_features_not_none`): the old features
are gone and exactly the two supplied ones are persisted. -/
theorem update_offer_replaces_features_witness :
    ∃ s', update_offer demoStore (some 1) 1 none none
        (some [⟨1, "basic", "Updated", 3, 3, 150,
               some ["New Feature 1", "New Feature 2"]⟩]) = .ok s' ∧
      (featuresOf s' 1).map (fun f => f.description)
        = processFeatures ["New Feature 1", "New Feature 2"] ∧
      ((∀ f ∈ ["New Feature 1", "New Feature 2"], strip f = f ∧ f ≠ "") →
        (featuresOf s' 1).map (fun f => f.description)
          = ["New Feature 1", "New Feature 2"]) :=
  update_offer_replaces_features demoStore 1 1 ⟨1, 1, "Test Service", "Test description"⟩
    none none ⟨1, "basic", "Updated", 3, 3, 150, some ["New Feature 1", "New Feature 2"]⟩
    ["New Feature 1", "New Feature 2"] (by decide) (by decide) (by decide) (by decide)

/-- **C3**: for every offer update request by the owner, if the detail-specs
key is absent the existing OfferDetails (and their features) are left
untouched, and an updated detail entry that omits the `features` key leaves
the Feature table unchanged (omitted key is a no-op, distinct from an empty
list which clears). -/
theorem update_offer_frame (s : Store) (a oid : Nat) (o : Offer)
    (nt nd : Option String) (spec : UpdDetailSpec)
    (hfind : s.offers.find? (fun o2 => o2.id = oid) = some o)
    (hcr : o.creator = a)
    (hfs : spec.features = none) :
    (∃ s', update_offer s (some a) oid nt nd none = .ok s' ∧
       s'.details = s.details ∧ s'.features = s.features) ∧
    (∃ s', update_offer s (some a) oid nt nd (some [spec]) = .ok s' ∧
       s'.features = s.features) := by
  constructor
  · refine ⟨update_stats { s with offers := s.offers.map (fun o2 =>
        if o2.id = oid then
          { o2 with title := nt.getD o2.title
                    description := nd.getD o2.description }
        else o2) }, by simp [update_offer, hfind, hcr], rfl, rfl⟩
  · have hupd : update_offer s (some a) oid nt nd (some [spec])
        = .ok (update_stats (applyDetailUpd oid
            { s with offers := s.offers.map (fun o2 =>
                if o2.id = oid then
                  { o2 with title := nt.getD o2.title
                            description := nd.getD o2.description }
                else o2) } spec)) := by
      simp [update_offer, hfind, hcr]
    refine ⟨_, hupd, ?_⟩
    show (applyDetailUpd oid _ spec).features = s.features
    unfold applyDetailUpd
    cases hdd : ({ s with offers := s.offers.map (fun o2 =>
        if o2.id = oid then
          { o2 with title := nt.getD o2.title
                    description := nd.getD o2.description }
        else o2) } : Store).details.find? (fun d2 => d2.id = spec.id && d2.offer = oid) with
    | none => rfl
    | some dd => rw [hfs]

/-- C3's witness: in `demoStore`, the owner's update without a details key
leaves details and features untouched, and an update of detail 1 omitting
the `features` key leaves the feature table unchanged. -/
theorem update_offer_frame_witness :
    (∃ s', update_offer demoStore (some 1) 1 (some "Updated") (some "Updated") none
        = .ok s' ∧ s'.details = demoStore.details ∧ s'.features = demoStore.features) ∧
    (∃ s', update_offer demoStore (some 1) 1 (some "Updated") (some "Updated")
        (some [⟨1, "basic", "Updated", 3, 3, 150, none⟩]) = .ok s' ∧
       s'.features = demoStore.features) :=
  update_offer_frame demoStore 1 1 ⟨1, 1, "Test Service", "Test description"⟩
    (some "Updated") (some "Updated") ⟨1, "basic", "Updated", 3, 3, 150, none⟩
    (by decide) (by decide) (by decide)

/-- **C5**: for every successful review creation by a customer actor, the
reviewer on the created record is the acting identity, independent of any
reviewer value supplied in the request body; two requests differing only in
the supplied reviewer value produce the same result. -/
theorem create_review_forces_reviewer (s : Store) (a bu rating : Nat) (desc : String)
    (r1 r2 : Option Nat)
    (hcust : profileTypeOf s a = some PType.customer)
    (hrat : 1 ≤ rating ∧ rating ≤ 5) :
    create_review s (some a) bu rating desc r1 = create_review s (some a) bu rating desc r2 ∧
    ∃ s' rec, create_review s (some a) bu rating desc r1 = .ok (s', rec) ∧
      rec.reviewer = a ∧ rec ∈ s'.reviews := by
  refine ⟨rfl,
    update_stats { s with nextReview := s.nextReview + 1
                          reviews := s.reviews ++ [⟨s.nextReview, a, bu, rating, desc⟩] },
    ⟨s.nextReview, a, bu, rating, desc⟩, ?_, rfl, ?_⟩
  · simp [create_review, hcust, hrat.1, hrat.2]
  · show (⟨s.nextReview, a, bu, rating, desc⟩ : Review) ∈ s.reviews ++ _
    exact List.mem_append_right _ (List.mem_singleton.mpr rfl)

/-- C5's witness: in `demoStore` the customer (id 2) creates a review of the
business (id 1); two requests whose bodies claim reviewers 2 and 1
respectively give the same result, and the created record's reviewer is 2. -/
theorem create_review_forces_reviewer_witness :
    create_review demoStore (some 2) 1 4 "Good service!" (some 2)
      = create_review demoStore (some 2) 1 4 "Good service!" (some 1) ∧
    ∃ s' rec, create_review demoStore (some 2) 1 4 "Good service!" (some 2)
        = .ok (s', rec) ∧ rec.reviewer = 2 ∧ rec ∈ s'.reviews :=
  create_review_forces_reviewer demoStore 2 1 4 "Good service!" (some 2) (some 1)
    (by decide) (by decide)

/-- **C6**: offer creation is allowed only for business actors; an
unauthenticated request is denied as Unauthenticated, an authenticated
non-business actor is denied as Forbidden, and a business actor succeeds —
so the forbidden-versus-unauthorized distinction is preserved in the
returned value. -/
theorem offer_create_authorization (s : Store) (a : Nat) (t d : String)
    (specs : List RawDetailSpec) :
    create_offer s none t d specs = .error .Unauthenticated ∧
    (profileTypeOf s a ≠ some PType.business →
      create_offer s (some a) t d specs = .error .Forbidden) ∧
    (profileTypeOf s a = some PType.business →
      ∃ r, create_offer s (some a) t d specs = .ok r) := by
  refine ⟨rfl, fun h => by simp [create_offer, h], fun h =>
    ⟨(update_stats (specs.foldl (tryCreateDetail s.nextOffer)
        { s with nextOffer := s.nextOffer + 1
                 offers := s.offers ++ [⟨s.nextOffer, a, t, d⟩] }), s.nextOffer),
      by simp [create_offer, h]⟩⟩

/-- C6's witness: in `demoStore`, an anonymous offer creation is
Unauthenticated, the customer's (id 2) is Forbidden, and the business's
(id 1) succeeds. -/
theorem offer_create_authorization_witness :
    create_offer demoStore none "New Service" "New service description" []
      = .error .Unauthenticated ∧
    create_offer demoStore (some 2) "New Service" "New service description" []
      = .error .Forbidden ∧
    ∃ r, create_offer demoStore (some 1) "New Service" "New service description" []
      = .ok r :=
  ⟨(offer_create_authorization demoStore 2 "New Service" "New service description" []).1,
   (offer_create_authorization demoStore 2 "New Service" "New service description" []).2.1
     (by decide),
   (offer_create_authorization demoStore 1 "New Service" "New service description" []).2.2
     (by decide)⟩

/-- **C7**: `reviews_for_business uid` returns NotFound when no identity
with that id exists and Validation when the identity exists but its profile
type is not business; symmetrically, `reviews_by_reviewer uid` returns
NotFound when the identity is absent and Validation when its profile type is
not customer. -/
theorem review_lookup_status (s : Store) (uid : Nat) :
    (uid ∉ s.users →
      reviews_for_business s uid = .error .NotFound ∧
      reviews_by_reviewer s uid = .error .NotFound) ∧
    (uid ∈ s.users →
      (profileTypeOf s uid ≠ some PType.business →
        reviews_for_business s uid = .error .Validation) ∧
      (profileTypeOf s uid ≠ some PType.customer →
        reviews_by_reviewer s uid = .error .Validation)) := by
  constructor
  · intro h
    exact ⟨by simp [reviews_for_business, h], by simp [reviews_by_reviewer, h]⟩
  · intro h
    constructor <;> intro h2
    · cases hm : profileTypeOf s uid with
      | none => simp [reviews_for_business, h, hm]
      | some ty =>
          cases ty with
          | business => exact absurd hm h2
          | customer => simp [reviews_for_business, h, hm]
    · cases hm : profileTypeOf s uid with
      | none => simp [reviews_by_reviewer, h, hm]
      | some ty =>
          cases ty with
          | business => simp [reviews_by_reviewer, h, hm]
          | customer => exact absurd hm h2

/-- C7's witness: in `demoStore` (users 1 business, 2 customer), id 99 is
NotFound for both lookups, the customer id 2 is Validation for the business
lookup, and the business id 1 is Validation for the reviewer lookup. -/
theorem review_lookup_status_witness :
    (reviews_for_business demoStore 99 = .error .NotFound ∧
     reviews_by_reviewer demoStore 99 = .error .NotFound) ∧
    reviews_for_business demoStore 2 = .error .Validation ∧
    reviews_by_reviewer demoStore 1 = .error .Validation :=
  ⟨(review_lookup_status demoStore 99).1 (by decide),
   ((review_lookup_status demoStore 2).2 (by decide)).1 (by decide),
   ((review_lookup_status demoStore 1).2 (by decide)).2 (by decide)⟩

/-- **C8**: every order-creation attempt by an actor whose profile type is
business is denied — the result is an error that is Forbidden or Validation,
and never a success, so no Order row is ever created. -/
theorem order_create_business_denied (s : Store) (a : Nat) (odid : Option Nat)
    (hbiz : profileTypeOf s a = some PType.business) :
    (∃ e, create_order s (some a) odid = .error e ∧
       (e = Err.Forbidden ∨ e = Err.Validation)) ∧
    ∀ r, create_order s (some a) odid ≠ .ok r := by
  have h : create_order s (some a) odid = .error .Forbidden := by
    simp [create_order, hbiz]
  exact ⟨⟨.Forbidden, h, Or.inl rfl⟩, fun r hr => by rw [h] at hr; cases hr⟩

/-- C8's witness: in `demoStore` the business user (id 1) attempts to order
its own offer detail; the attempt is denied and never succeeds. -/
theorem order_create_business_denied_witness :
    (∃ e, create_order demoStore (some 1) (some 1) = .error e ∧
       (e = Err.Forbidden ∨ e = Err.Validation)) ∧
    ∀ r, create_order demoStore (some 1) (some 1) ≠ .ok r :=
  order_create_business_denied demoStore 1 (some 1) (by decide)

/-- **C9**: after every stats recomputation, the persisted average rating
(`average_rating_tenths / 10`) equals the mean of all review ratings rounded
to one decimal when at least one review exists, and equals 0.0 when zero
reviews exist. -/
theorem stats_average_rating (s : Store) :
    (s.reviews = [] → (computeStats s).average_rating_tenths = 0) ∧
    (s.reviews ≠ [] →
      ((computeStats s).average_rating_tenths : ℚ) / 10
        = round1 ((s.reviews.map (fun r => (r.rating : ℚ))).sum
            / (s.reviews.length : ℚ))) := by
  constructor
  · intro h
    simp [computeStats, h]
  · intro h
    have hlen : s.reviews.length ≠ 0 := by simpa [List.length_eq_zero] using h
    have hne : s.reviews.isEmpty = false := by
      simpa [List.isEmpty_iff] using h
    have hten : (computeStats s).average_rating_tenths
        = (20 * (s.reviews.map (fun r => r.rating)).sum + s.reviews.length) /
            (2 * s.reviews.length) := by
      simp [computeStats, hne]
    have hsum : (((s.reviews.map (fun r => r.rating)).sum : ℕ) : ℚ)
        = (s.reviews.map (fun r => (r.rating : ℚ))).sum := by
      rw [Nat.cast_list_sum, List.map_map]
      rfl
    have hround := round_tenths ((s.reviews.map (fun r => r.rating)).sum)
      s.reviews.length hlen
    unfold round1
    rw [← hsum, ← mul_div_assoc, hten]
    congr 1
    rw [← hround]
    exact (Int.cast_natCast _).symm

/-- C9's witness: in `ratedStore` (review ratings 5, 4, 3) the stored tenths
are 40, i.e. 4.0, and they equal the rounded mean by the theorem; in
`demoStore` (zero reviews) the stored tenths are 0. -/
theorem stats_average_rating_witness :
    (computeStats ratedStore).average_rating_tenths = 40 ∧
    ((computeStats ratedStore).average_rating_tenths : ℚ) / 10
      = round1 ((ratedStore.reviews.map (fun r => (r.rating : ℚ))).sum
          / (ratedStore.reviews.length : ℚ)) ∧
    (computeStats demoStore).average_rating_tenths = 0 :=
  ⟨by decide, (stats_average_rating ratedStore).2 (by decide),
   (stats_average_rating demoStore).1 (by decide)⟩

/-- **C10**: every account has exactly one Profile in one-to-one
correspondence: creating an account preserves the pairing and automatically
creates the new account's Profile with type customer, and deleting an
account preserves the pairing and cascades so that no Profile of the deleted
account survives. -/
theorem profile_one_to_one (s : Store) (h : ProfileInv s) :
    ProfileInv (create_user s).1 ∧
    ((create_user s).1.profiles.filter (fun p => p.user = (create_user s).2))
      = [⟨(create_user s).2, PType.customer⟩] ∧
    ∀ uid, ProfileInv (delete_user s uid) ∧
      ∀ p ∈ (delete_user s uid).profiles, p.user ≠ uid := by
  obtain ⟨hu, hp, hone, hmem⟩ := h
  have hnew : (s.profiles.filter (fun p => p.user = s.nextUser)) = [] :=
    List.filter_eq_nil_iff.mpr (fun p hp' => by
      have := hp p hp'
      simp only [decide_eq_true_eq]
      omega)
  refine ⟨⟨?_, ?_, ?_, ?_⟩, ?_, ?_⟩
  · intro u hu'
    rcases List.mem_append.mp hu' with h1 | h1
    · exact Nat.lt_succ_of_lt (hu u h1)
    · rw [List.mem_singleton.mp h1]
      exact Nat.lt_succ_self _
  · intro p hp'
    rcases List.mem_append.mp hp' with h1 | h1
    · exact Nat.lt_succ_of_lt (hp p h1)
    · rw [List.mem_singleton.mp h1]
      exact Nat.lt_succ_self _
  · intro u hu'
    show ((s.profiles ++ [(⟨s.nextUser, PType.customer⟩ : Profile)]).filter
      (fun p => p.user = u)).length = 1
    rw [List.filter_append]
    rcases List.mem_append.mp hu' with h1 | h1
    · have hlt := hu u h1
      have hsingle : (([⟨s.nextUser, PType.customer⟩] : List Profile).filter
          (fun p => p.user = u)) = [] := by
        simp only [List.filter, decide_eq_true_eq]
        have : ¬ s.nextUser = u := by omega
        simp [this]
      rw [hsingle, List.append_nil]
      exact hone u h1
    · rw [List.mem_singleton.mp h1, hnew]
      simp
  · intro p hp'
    rcases List.mem_append.mp hp' with h1 | h1
    · exact List.mem_append_left _ (hmem p h1)
    · rw [List.mem_singleton.mp h1]
      exact List.mem_append_right _ (List.mem_singleton.mpr rfl)
  · show ((s.profiles ++ [(⟨s.nextUser, PType.customer⟩ : Profile)]).filter
      (fun p => p.user = s.nextUser)) = _
    rw [List.filter_append, hnew]
    simp
    rfl
  · intro uid
    refine ⟨⟨?_, ?_, ?_, ?_⟩, ?_⟩
    · intro u hu'
      exact hu u (List.mem_filter.mp hu').1
    · intro p hp'
      exact hp p (List.mem_filter.mp hp').1
    · intro u hu'
      obtain ⟨h1, h2⟩ := List.mem_filter.mp hu'
      have hne2 : u ≠ uid := by simpa using h2
      have hff : (s.profiles.filter (fun p => p.user ≠ uid)).filter
          (fun p => p.user = u) = s.profiles.filter (fun p => p.user = u) := by
        rw [List.filter_filter]
        apply List.filter_congr
        intro p hp'
        by_cases hc : p.user = u
        · simp [hc, hne2]
        · simp [hc]
      show ((s.profiles.filter (fun p => p.user ≠ uid)).filter
        (fun p => p.user = u)).length = 1
      rw [hff]
      exact hone u h1
    · intro p hp'
      obtain ⟨h1, h2⟩ := List.mem_filter.mp hp'
      exact List.mem_filter.mpr ⟨hmem p h1, h2⟩
    · intro p hp'
      exact of_decide_eq_true (List.mem_filter.mp hp').2

/-- C10's witness: the pairing invariant holds of `demoStore`, is preserved
by account creation (which adds a customer-typed profile for the new id) and
by account deletion with its cascade. -/
theorem profile_one_to_one_witness :
    ProfileInv (create_user demoStore).1 ∧
    ((create_user demoStore).1.profiles.filter
        (fun p => p.user = (create_user demoStore).2))
      = [⟨(create_user demoStore).2, PType.customer⟩] ∧
    ∀ uid, ProfileInv (delete_user demoStore uid) ∧
      ∀ p ∈ (delete_user demoStore uid).profiles, p.user ≠ uid :=
  profile_one_to_one demoStore ⟨by decide, by decide, by decide, by decide⟩

end Coderr
